import Mathlib

/-!
Verification of the pyrevolt client SDK (gateway session, heartbeat,
entity cache and channel/user decoding) against its specification.

The Python sources `src/pyvolt/gateway.py`, `src/pyvolt/structs/user.py`
and `src/pyvolt/structs/channels.py` are shallowly embedded below:
dictionaries become association lists, JSON values a small inductive,
Python exceptions an error type threaded through `Except`, and the
gateway object a record of its mutable fields with each method a state
transformer.  Network I/O is abstracted as an oracle from request path
to response, and every operation that may fetch reports the list of
paths it requested, so that properties about "performs no network
fetch" are statable.
-/

namespace Pyvolt

/-- JSON values, as produced by `json.loads` on the wire payloads the
code consumes. -/
inductive Json where
  | null
  | bool (b : Bool)
  | num (n : Int)
  | str (s : String)
  | arr (xs : List Json)
  | obj (fields : List (String × Json))
deriving Repr

/-- Python exceptions raised by the embedded code paths. -/
inductive PyError where
  | keyError (k : String)
  | attributeError (attr : String)
  | typeError
  | valueError
  | closedSocket
  | transportError
  | runtimeError
deriving Repr, DecidableEq

/-- `d.get(k)` on a Python dict: `None` both when the key is absent and
when the stored value is JSON null (both read back as Python `None`). -/
def Json.get (j : Json) (k : String) : Option Json :=
  match j with
  | .obj fields =>
    match fields.lookup k with
    | some .null => none
    | v => v
  | _ => none

/-- `d[k]` on a Python dict: `KeyError` when the key is absent,
`TypeError` when the subscripted value is not a dict. -/
def Json.getKey (j : Json) (k : String) : Except PyError Json :=
  match j with
  | .obj fields =>
    match fields.lookup k with
    | some v => .ok v
    | none => .error (.keyError k)
  | _ => .error .typeError

/-- Reads a JSON value expected by the code to be a string (IDs, names
and URLs on the wire are strings). -/
def Json.asStr : Json → Except PyError String
  | .str s => .ok s
  | _ => .error .typeError

/-- Reads a JSON array of strings (the `recipients` field). -/
def Json.asStrList : Json → Except PyError (List String)
  | .arr xs => xs.foldr (fun x acc => do
      let s ← x.asStr
      let rest ← acc
      .ok (s :: rest)) (.ok [])
  | _ => .error .typeError

/-- `structs/user.py`: the `Relationship` enum. -/
inductive Relationship where
  | Blocked | BlockedOther | Friend | Incoming | Outgoing | NoRelationship | User
deriving Repr, DecidableEq

/-- `Relationship(x)`: the enum constructor, `ValueError` on any value
that is not a member value. -/
def Relationship.fromJson : Json → Except PyError Relationship
  | .str "Blocked" => .ok .Blocked
  | .str "BlockedOther" => .ok .BlockedOther
  | .str "Friend" => .ok .Friend
  | .str "Incoming" => .ok .Incoming
  | .str "Outgoing" => .ok .Outgoing
  | .str "None" => .ok .NoRelationship
  | .str "User" => .ok .User
  | _ => .error .valueError

/-- `structs/user.py`: the `Presence` enum. -/
inductive Presence where
  | Busy | Idle | Invisible | Online
deriving Repr, DecidableEq

/-- `Presence(x)`: the enum constructor, `ValueError` otherwise. -/
def Presence.fromJson : Json → Except PyError Presence
  | .str "Busy" => .ok .Busy
  | .str "Idle" => .ok .Idle
  | .str "Invisible" => .ok .Invisible
  | .str "Online" => .ok .Online
  | _ => .error .valueError

/-- `structs/user.py` `Status`: presence plus the raw optional `text`
kwarg exactly as `Status.__init__` stores it. -/
structure Status where
  presence : Presence
  text : Option Json
deriving Repr

/-- `Status.FromJSON`: reads `presence` (KeyError if absent, ValueError
if not a member) and the optional `text`. -/
def Status.FromJSON (data : Json) : Except PyError Status := do
  let t := data.get "text"
  let p ← data.getKey "presence"
  let pres ← Presence.fromJson p
  .ok { presence := pres, text := t }

/-- `structs/user.py` `Bot`: stores the raw `ownerID` it is constructed
with. -/
structure Bot where
  ownerID : Json
deriving Repr

/-- `structs/user.py` `User.__init__`: the attributes a `User` object
carries.  `id` and `username` are the positional arguments; the rest
are `kwargs.get(...)` results, stored raw. -/
structure User where
  id : String
  username : String
  badges : Option Json
  online : Option Json
  relationship : Option Relationship
  status : Option Status
  flags : Option Json
  bot : Option Bot
deriving Repr

/-- Python attribute access `u.<name>` on a `User` object, for the
string-valued attributes: `User.__init__` defines `id` and `username`;
any other string attribute name raises `AttributeError` (in particular
there is no attribute `userID`). -/
def User.getStrAttr (u : User) (name : String) : Except PyError String :=
  if name = "id" then .ok u.id
  else if name = "username" then .ok u.username
  else .error (.attributeError name)

/-- `User.FromJSON` (`structs/user.py` lines 55-69): builds the kwargs
from the optional fields, converts `relationship` and `status`, then
constructs the `User` from `_id` and `username`. -/
def User.FromJSON (data : Json) : Except PyError User := do
  let badges := data.get "badges"
  let online := data.get "online"
  let relationship ← match data.get "relationship" with
    | none => pure (none : Option Relationship)
    | some r => do
      let rel ← Relationship.fromJson r
      pure (some rel)
  let status ← match data.get "status" with
    | none => pure (none : Option Status)
    | some st => do
      let s ← Status.FromJSON st
      pure (some s)
  let bot ← match data.get "bot" with
    | none => pure (none : Option Bot)
    | some b => do
      let owner ← b.getKey "owner"
      pure (some (Bot.mk owner))
  let idJ ← data.getKey "_id"
  let id ← idJ.asStr
  let unJ ← data.getKey "username"
  let username ← unJ.asStr
  .ok { id, username, badges, online, relationship, status, flags := none, bot }

/-- The network, abstracted: a response (or a transport failure) for
each request path.  `AddAuthentication` attaches the session token to
every request the code issues; the oracle answers the authenticated
request for a path. -/
structure Transport where
  respond : String → Except PyError Json

/-- `User.FromID` (`structs/user.py` lines 71-78): fetches
`/users/{id}` through a fresh HTTP client and decodes the result.
Stores nothing anywhere. -/
def User.FromID (t : Transport) (id : String) : Except PyError User := do
  let result ← t.respond ("/users/" ++ id)
  User.FromJSON result

/-- Python `==` between a JSON-decoded value and a string literal:
true exactly when the value is that string. -/
def Json.eqStr (j : Json) (v : String) : Bool :=
  match j with
  | .str s => s = v
  | _ => false

/-- `structs/channels.py`: the `ChannelType` enum. -/
inductive ChannelType where
  | SavedMessages | DirectMessage | Group | TextChannel | VoiceChannel
deriving Repr, DecidableEq

/-- `ChannelType.<member>.value`: the wire tag of each member. -/
def ChannelType.value : ChannelType → String
  | .SavedMessages => "SavedMessages"
  | .DirectMessage => "DirectMessage"
  | .Group => "Group"
  | .TextChannel => "TextChannel"
  | .VoiceChannel => "VoiceChannel"

/-- The channel class hierarchy of `structs/channels.py`, one
constructor per concrete class, carrying exactly the attributes each
`__init__` stores (the optional kwargs are kept as the raw JSON values
the decoder put into `kwargs`; the implicit `session` back-pointer of
`Channel.__init__` is the ambient session and is not duplicated inside
the entity).  `Group.owner` is an `Option` because `FromJSON`
initialises `owner = None` and may never assign it. -/
inductive Channel where
  | savedMessages (channelID : String) (user : User)
  | directMessage (channelID : String) (active : Json) (recipients : List User)
      (lastMessageID : Option Json)
  | group (channelID : String) (name : String) (recipients : List User)
      (owner : Option User) (description : Option Json) (lastMessageID : Option Json)
      (permissions : Option Json) (nsfw : Option Json)
  | textChannel (channelID : String) (server : Json) (name : String)
      (description : Option Json) (defaultPermissions : Option Json)
      (nsfw : Option Json) (lastMessageID : Option Json)
  | voiceChannel (channelID : String) (server : Json) (name : String)
      (description : Option Json) (defaultPermissions : Option Json) (nsfw : Option Json)
deriving Repr

/-- The `channelID` attribute set by `Channel.__init__`. -/
def Channel.channelID : Channel → String
  | .savedMessages cid _ => cid
  | .directMessage cid _ _ _ => cid
  | .group cid _ _ _ _ _ _ _ => cid
  | .textChannel cid _ _ _ _ _ _ => cid
  | .voiceChannel cid _ _ _ _ _ => cid

/-- Python dict assignment `d[k] = v` on an association list: replaces
the existing binding for `k` or appends a new one. -/
def setKey (l : List (String × α)) (k : String) (v : α) : List (String × α) :=
  if l.any (fun p => p.1 = k) then l.map (fun p => if p.1 = k then (k, v) else p)
  else l ++ [(k, v)]

/-- The session object the entity code receives: the auth token and the
two entity caches (`session.users`, `session.channels`), separate
namespaces keyed by entity ID. -/
structure Session where
  token : String
  users : List (String × User)
  channels : List (String × Channel)
deriving Repr

/-- The user-resolution pattern of `Channel.FromJSON` (`channels.py`
lines 31-33, 40-42 and 57-59): `session.users.get(userID)`, and on a
miss `await User.FromID(userID, session.token)`.  Returns the resolved
user, the session (which this code path never mutates: the fetched user
is NOT written back into `session.users`), and the list of request
paths fetched. -/
def Channel.resolveUser (t : Transport) (s : Session) (userID : String) :
    Except PyError (User × Session × List String) :=
  match s.users.lookup userID with
  | some u => .ok (u, s, [])
  | none => do
    let u ← User.FromID t userID
    .ok (u, s, ["/users/" ++ userID])

/-- The recipients loop of the `DirectMessage` branch (`channels.py`
lines 38-43): resolve each user ID in order and append. -/
def Channel.resolveRecipients (t : Transport) (s : Session) :
    List String → Except PyError (List User × List String)
  | [] => .ok ([], [])
  | uid :: rest => do
    let (u, _, log1) ← Channel.resolveUser t s uid
    let (us, log2) ← Channel.resolveRecipients t s rest
    .ok (u :: us, log1 ++ log2)

/-- The recipients loop of the `Group` branch (`channels.py` lines
54-62): resolve each user ID; on each iteration test
`user.userID == data["owner"]` — an attribute access on `User`, which
defines `id`, not `userID` — and record the user as `owner` when it
matches; append the user to `recipients`.  The `owner` accumulator
starts as the `owner = None` of line 55 and a later match overwrites an
earlier one, as sequential assignment does. -/
def Channel.resolveGroupRecipients (t : Transport) (s : Session) (data : Json) :
    List String → Option User → Except PyError (List User × Option User × List String)
  | [], owner => .ok ([], owner, [])
  | uid :: rest, owner => do
    let (u, _, log1) ← Channel.resolveUser t s uid
    let a ← u.getStrAttr "userID"
    let ownerJ ← data.getKey "owner"
    let owner' := if ownerJ.eqStr a then some u else owner
    let (us, ow, log2) ← Channel.resolveGroupRecipients t s data rest owner'
    .ok (u :: us, ow, log1 ++ log2)

/-- The guarded kwargs reads shared by the `TextChannel` and
`VoiceChannel` branches (`channels.py` lines 67-68 and 77-78): the
guard tests `data.get("default_permissions")` but the read is
`data["defaultPermissions"]` — a `KeyError` when the camel-case key is
absent while the snake-case one is present. -/
def Channel.readDefaultPermissions (data : Json) : Except PyError (Option Json) :=
  match data.get "default_permissions" with
  | none => .ok none
  | some _ => do
    let v ← data.getKey "defaultPermissions"
    .ok (some v)

/-- `Channel.FromJSON` (`channels.py` lines 23-83).  `jsonData` arrives
already parsed (the Python code's first step, `json.loads`).  The
`match data["channel_type"]` becomes a chain of string comparisons, one
per `case`; each branch evaluates its reads in source order.  `channel`
starts as `None`; when no case matches it stays `None` and the final
registration `session.channels[channel.channelID] = channel` raises
`AttributeError` (`None` has no attribute `channelID`); otherwise the
channel is stored under its ID and returned.  The returned session
carries the channel-cache write; the request-path log records the
fetches the branch performed. -/
def Channel.FromJSON (t : Transport) (data : Json) (s : Session) :
    Except PyError (Channel × Session × List String) := do
  let tag ← data.getKey "channel_type"
  let branch ←
    if tag.eqStr (ChannelType.value .SavedMessages) then do
      let uidJ ← data.getKey "user"
      let uid ← uidJ.asStr
      let (user, _, log1) ← Channel.resolveUser t s uid
      let cidJ ← data.getKey "_id"
      let cid ← cidJ.asStr
      pure (some (Channel.savedMessages cid user), log1)
    else if tag.eqStr (ChannelType.value .DirectMessage) then do
      let lastMessageID := data.get "last_message_id"
      let recJ ← data.getKey "recipients"
      let uids ← recJ.asStrList
      let (recipients, log1) ← Channel.resolveRecipients t s uids
      let cidJ ← data.getKey "_id"
      let cid ← cidJ.asStr
      let active ← data.getKey "active"
      pure (some (Channel.directMessage cid active recipients lastMessageID), log1)
    else if tag.eqStr (ChannelType.value .Group) then do
      let description := data.get "description"
      let lastMessageID := data.get "last_message_id"
      let permissions := data.get "permissions"
      let nsfw := data.get "nsfw"
      let recJ ← data.getKey "recipients"
      let uids ← recJ.asStrList
      let (recipients, owner, log1) ← Channel.resolveGroupRecipients t s data uids none
      let cidJ ← data.getKey "_id"
      let cid ← cidJ.asStr
      let nameJ ← data.getKey "name"
      let name ← nameJ.asStr
      pure (some (Channel.group cid name recipients owner description lastMessageID
        permissions nsfw), log1)
    else if tag.eqStr (ChannelType.value .TextChannel) then do
      let description := data.get "description"
      let defaultPermissions ← Channel.readDefaultPermissions data
      let nsfw := data.get "nsfw"
      let lastMessageID := data.get "last_message_id"
      let cidJ ← data.getKey "_id"
      let cid ← cidJ.asStr
      let server ← data.getKey "server"
      let nameJ ← data.getKey "name"
      let name ← nameJ.asStr
      pure (some (Channel.textChannel cid server name description defaultPermissions
        nsfw lastMessageID), ([] : List String))
    else if tag.eqStr (ChannelType.value .VoiceChannel) then do
      let description := data.get "description"
      let defaultPermissions ← Channel.readDefaultPermissions data
      let nsfw := data.get "nsfw"
      let cidJ ← data.getKey "_id"
      let cid ← cidJ.asStr
      let server ← data.getKey "server"
      let nameJ ← data.getKey "name"
      let name ← nameJ.asStr
      pure (some (Channel.voiceChannel cid server name description defaultPermissions
        nsfw), ([] : List String))
    else
      pure (none, ([] : List String))
  match branch with
  | (none, _) => .error (.attributeError "channelID")
  | (some c, log) =>
    .ok (c, { s with channels := setKey s.channels c.channelID c }, log)

/-- `Channel.FromID` (`channels.py` lines 85-96): cache hit returns the
cached channel; otherwise fetch `/channels/{id}`, and when the result
carries a `type` field (the shape of an API error payload) `return`
with no value — Python `None` — instead of decoding; otherwise decode
through `FromJSON`. -/
def Channel.FromID (t : Transport) (s : Session) (channelID : String) :
    Except PyError (Option Channel × Session × List String) :=
  match s.channels.lookup channelID with
  | some c => .ok (some c, s, [])
  | none => do
    let result ← t.respond ("/channels/" ++ channelID)
    if (result.get "type").isSome then
      .ok (none, s, ["/channels/" ++ channelID])
    else do
      let (c, s', log) ← Channel.FromJSON t result s
      .ok (some c, s', ("/channels/" ++ channelID) :: log)

/-- `gateway.py` class `Authenticate`: `VALUE = "Authenticate"`, the
payload tag used by `Gateway.Authenticate`
(`GatewayEvent.Authenticate.value.VALUE`). -/
def Authenticate.VALUE : String := "Authenticate"

/-- `gateway.py` `GatewayEvent.Ping.value`. -/
def GatewayEvent.Ping.value : String := "Ping"

/-- The mutable state of a `Gateway` object together with the objects
it owns (`gateway.py` lines 64-69): the HTTP client's closed flag, the
websocket's open flag and the URL it was connected to, the keep-alive
thread's started flag and its `stopEvent`, plus observation logs — the
URLs passed to `client.connect` (one entry per physical socket opened),
the number of `websocket.close()` calls (resource releases), and the
frames written to the socket. -/
structure GatewayState where
  httpClosed : Bool
  websocketOpen : Bool
  websocketURL : Option String
  keepAliveStarted : Bool
  stopEventSet : Bool
  socketsOpened : List String
  socketCloseCount : Nat
  sentFrames : List Json
deriving Repr

/-- `Gateway.__init__`: fresh `HTTPClient`, a `GatewayKeepAlive` thread
(not yet started, `Event` initially unset), and a freshly constructed
`WebSocketClientProtocol`, which is not open (no connection was made). -/
def Gateway.mkGateway : GatewayState :=
  { httpClosed := false
    websocketOpen := false
    websocketURL := none
    keepAliveStarted := false
    stopEventSet := false
    socketsOpened := []
    socketCloseCount := 0
    sentFrames := [] }

/-- `Gateway.__init__` passes `interval=20` to `GatewayKeepAlive`. -/
def Gateway.keepAliveInterval : Nat := 20

/-- `GatewayKeepAlive.run` waits on `func.result(10)`: the bounded wait
for acknowledgment that the submitted send completed. -/
def GatewayKeepAlive.resultTimeout : Nat := 10

/-- The keep-alive thread is still looping exactly when it was started
and its stop event has not been set (`run`'s `while not
self.stopEvent.wait(self.interval)` exits once the event is set). -/
def GatewayState.heartbeatRunning (g : GatewayState) : Bool :=
  g.keepAliveStarted && !g.stopEventSet

/-- `Gateway.Close` (`gateway.py` lines 71-75): close the HTTP client;
then, only if the websocket is open, close it and set the keep-alive
stop event. -/
def Gateway.Close (g : GatewayState) : GatewayState :=
  let g1 := { g with httpClosed := true }
  if g1.websocketOpen then
    { g1 with websocketOpen := false
              socketCloseCount := g1.socketCloseCount + 1
              stopEventSet := true }
  else g1

/-- `Gateway.GetWebsocketURL` (`gateway.py` lines 77-79): `GET /` and
extract the `ws` field (a `KeyError` if the response lacks it). -/
def Gateway.GetWebsocketURL (t : Transport) : Except PyError String := do
  let result ← t.respond "/"
  let ws ← result.getKey "ws"
  ws.asStr

/-- `Gateway.Connect` (`gateway.py` lines 81-85): guarded by `if not
self.websocket.open`; resolves the URL, connects the websocket to it,
clears the stop event, then calls `Thread.start()` on the keep-alive —
which raises `RuntimeError` when the thread was already started once
(Python threads can only be started once). -/
def Gateway.Connect (t : Transport) (g : GatewayState) : Except PyError GatewayState :=
  if !g.websocketOpen then do
    let url ← Gateway.GetWebsocketURL t
    let g1 := { g with websocketOpen := true
                       websocketURL := some url
                       socketsOpened := g.socketsOpened ++ [url] }
    let g2 := { g1 with stopEventSet := false }
    if g2.keepAliveStarted then .error .runtimeError
    else .ok { g2 with keepAliveStarted := true }
  else .ok g

/-- `Gateway.Send` (`gateway.py` lines 87-91): write the frame when the
websocket is open, otherwise raise `ClosedSocketException`. -/
def Gateway.Send (g : GatewayState) (data : Json) : Except PyError GatewayState :=
  if g.websocketOpen then .ok { g with sentFrames := g.sentFrames ++ [data] }
  else .error .closedSocket

/-- `Gateway.Authenticate` (`gateway.py` lines 104-108): send the
frame `{"type": "Authenticate", "token": token}` through `Send`. -/
def Gateway.Authenticate (g : GatewayState) (token : String) :
    Except PyError GatewayState :=
  Gateway.Send g (Json.obj [("type", Json.str Authenticate.VALUE),
                            ("token", Json.str token)])

/-- `GatewayKeepAlive.GetPayload` (`gateway.py` lines 58-62). -/
def GatewayKeepAlive.GetPayload : Json :=
  Json.obj [("type", Json.str GatewayEvent.Ping.value), ("data", Json.num 0)]

/-- One iteration of `GatewayKeepAlive.run`'s loop body (`gateway.py`
lines 53-56): build the payload and submit `Gateway.Send` to the
session's event loop, waiting up to `resultTimeout` for the result; a
`ClosedSocketException` raised by the send surfaces in the thread. -/
def GatewayKeepAlive.tick (g : GatewayState) : Except PyError GatewayState :=
  Gateway.Send g GatewayKeepAlive.GetPayload

/-- `GatewayKeepAlive.run` observed for `n` iterations of the `while
not self.stopEvent.wait(self.interval)` loop: each iteration first
waits one interval on the stop event (exiting if it is set), then runs
one tick. -/
def GatewayKeepAlive.run (g : GatewayState) : Nat → Except PyError GatewayState
  | 0 => .ok g
  | n + 1 =>
    if g.stopEventSet then .ok g
    else do
      let g1 ← GatewayKeepAlive.tick g
      GatewayKeepAlive.run g1 n

/-- The environment closing the underlying connection without `Close`
being called (remote endpoint or network drop): the websocket's `open`
flag turns false; nothing of the gateway object's own state changes. -/
def Gateway.remoteDrop (g : GatewayState) : GatewayState :=
  { g with websocketOpen := false }

/-! ### Concrete fixtures for witnesses and counterexamples -/

/-- Wire payload for user `U1`. -/
def u1Json : Json := Json.obj [("_id", Json.str "U1"), ("username", Json.str "alice")]

/-- Wire payload for user `U2`. -/
def u2Json : Json := Json.obj [("_id", Json.str "U2"), ("username", Json.str "bob")]

/-- The `User` object `User.FromJSON` builds from `u1Json`. -/
def u1 : User where
  id := "U1"
  username := "alice"
  badges := none
  online := none
  relationship := none
  status := none
  flags := none
  bot := none

/-- A transport serving the two user payloads. -/
def tUsers : Transport :=
  ⟨fun p =>
    if p = "/users/U1" then .ok u1Json
    else if p = "/users/U2" then .ok u2Json
    else .error .transportError⟩

/-- A session with empty caches. -/
def sEmptySession : Session := ⟨"tok", [], []⟩

/-- A session whose user cache already holds `U1`. -/
def sCachedU1 : Session := ⟨"tok", [("U1", u1)], []⟩

/-- The Group channel payload of the specification's scenario:
`recipients: ["U1","U2"]`, `owner: "U1"`. -/
def groupPayloadU1U2 : Json := Json.obj [
  ("channel_type", Json.str "Group"),
  ("_id", Json.str "G1"),
  ("name", Json.str "grp"),
  ("recipients", Json.arr [Json.str "U1", Json.str "U2"]),
  ("owner", Json.str "U1")]

/-- A transport whose `GET /` answers `{"ws": "wss://example/ws"}`. -/
def tGatewayURL : Transport :=
  ⟨fun p =>
    if p = "/" then .ok (Json.obj [("ws", Json.str "wss://example/ws")])
    else .error .transportError⟩

/-- A transport answering the channel fetch for `C9x` with an API error
payload (a JSON object carrying a `type` field). -/
def tChannelError : Transport :=
  ⟨fun p =>
    if p = "/channels/C9x" then .ok (Json.obj [("type", Json.str "NotFound")])
    else .error .transportError⟩

/-- The request paths a user resolution fetched (none when it raised). -/
def resolutionLog : Except PyError (User × Session × List String) → List String
  | .ok (_, _, log) => log
  | .error _ => []

/-- Whether the session returned by a user resolution has a cache entry
for `uid` (false when the resolution raised). -/
def resolutionCaches (r : Except PyError (User × Session × List String))
    (uid : String) : Bool :=
  match r with
  | .ok (_, s, _) => (s.users.lookup uid).isSome
  | .error _ => false

/-! ### Helper lemmas -/

/-- Reduction of `Except` bind on a success. -/
@[simp] theorem except_ok_bind {α β ε : Type} (a : α) (f : α → Except ε β) :
    (Except.ok a >>= f : Except ε β) = f a := rfl

/-- Reduction of `Except` bind on a failure. -/
@[simp] theorem except_error_bind {α β ε : Type} (e : ε) (f : α → Except ε β) :
    ((Except.error e : Except ε α) >>= f : Except ε β) = Except.error e := rfl

/-- Reduction of `Except` bind on a `pure`. -/
@[simp] theorem except_pure_bind {α β ε : Type} (a : α) (f : α → Except ε β) :
    ((pure a : Except ε α) >>= f : Except ε β) = f a := rfl

/-! ### Claims -/

/-- Claim C1: decoding the Group payload with `recipients ["U1","U2"]`
and `owner "U1"`, with `U1` already in the session's user cache, does
not yield a Group entity at all: the decoder's owner test reads
`user.userID` (`channels.py` line 60) but `User.__init__` defines the
attribute `id`, so the access raises `AttributeError` on the very first
recipient and no channel is constructed.  The spec's property (owner
identical to `recipients[0]`) is the evident intent of the
`if user.userID == data["owner"]` test; the attribute name is the slip. -/
theorem C1_group_owner_decode_raises :
    Channel.FromJSON tUsers groupPayloadU1U2 sCachedU1
      = .error (.attributeError "userID") := rfl

/-- Claim C2, counterexample: resolving `U1` against an empty user
cache fetches `/users/U1` and returns the decoded user, but hands back
the session unchanged — its user cache still has no entry for `U1` —
so the second resolution of `U1` (the same call on the returned
session) performs a network fetch again instead of finding the entry
cached, contradicting "stores the decoded User in the session's user
cache ... a second resolution of the same ID after a miss finds the
entry cached". -/
theorem C2_resolution_not_cached_counterexample :
    Channel.resolveUser tUsers sEmptySession "U1"
      = .ok (u1, sEmptySession, ["/users/U1"]) ∧
    resolutionCaches (Channel.resolveUser tUsers sEmptySession "U1") "U1" = false ∧
    resolutionLog (Channel.resolveUser tUsers sEmptySession "U1") ≠ [] :=
  ⟨rfl, rfl, by decide⟩

/-- Claim C2, amended: resolving a user reference returns the cached
entry when one is present, performing no network fetch; on a cache miss
it fetches `/users/{id}` via the transport, decodes the result and
returns it, but does NOT store the decoded user in the session's user
cache — the session comes back unchanged, so a second resolution of the
same ID after a miss fetches again. -/
theorem C2_resolveUser_amended (t : Transport) (s : Session) (uid : String) :
    (∀ u, s.users.lookup uid = some u →
      Channel.resolveUser t s uid = .ok (u, s, [])) ∧
    (s.users.lookup uid = none →
      Channel.resolveUser t s uid
        = (User.FromID t uid).map (fun u => (u, s, ["/users/" ++ uid]))) := by
  constructor
  · intro u h
    simp [Channel.resolveUser, h]
  · intro h
    simp [Channel.resolveUser, h]
    cases User.FromID t uid <;> rfl

/-- Claim C2, witness: with `U1` pre-cached the resolution returns the
cached object and fetches nothing. -/
theorem C2_resolveUser_amended_witness :
    Channel.resolveUser tUsers sCachedU1 "U1" = .ok (u1, sCachedU1, []) :=
  (C2_resolveUser_amended tUsers sCachedU1 "U1").1 u1 rfl

/-- The gateway state after a successful first `Connect` through
`tGatewayURL`. -/
def gConnected : GatewayState where
  httpClosed := false
  websocketOpen := true
  websocketURL := some "wss://example/ws"
  keepAliveStarted := true
  stopEventSet := false
  socketsOpened := ["wss://example/ws"]
  socketCloseCount := 0
  sentFrames := []

/-- Claim C3, counterexample: reach an open session by `Connect`, let
the underlying connection drop, then call `Close`: the socket ends
closed but the heartbeat is still running — `Close` only sets the
keep-alive stop event inside `if self.websocket.open`, so when the
socket was already closed before `close()` was called the timer is left
running, contradicting "the heartbeat timer is never left running once
the socket is closed, including when the socket was already closed
before close() was called". -/
theorem C3_heartbeat_left_running_counterexample :
    Gateway.Connect tGatewayURL Gateway.mkGateway = .ok gConnected ∧
    (Gateway.Close (Gateway.remoteDrop gConnected)).websocketOpen = false ∧
    (Gateway.Close (Gateway.remoteDrop gConnected)).heartbeatRunning = true :=
  ⟨rfl, rfl, rfl⟩

/-- Claim C3, amended: for the sequence `connect(); close()` on a fresh
session the session ends disconnected with the heartbeat stopped; in
general, however, `close()` stops the heartbeat only when the socket is
still open at the time of the call — after `close()` the heartbeat is
running exactly when it was started and neither an earlier `close()`
on an open socket nor anything else had set the stop event, so a socket
that closed on its own before `close()` leaves the timer running. -/
theorem C3_close_stops_heartbeat_amended (t : Transport) (g : GatewayState) :
    (Gateway.Connect t Gateway.mkGateway = .ok g →
      (Gateway.Close g).websocketOpen = false ∧
      (Gateway.Close g).heartbeatRunning = false) ∧
    (Gateway.Close g).heartbeatRunning
      = (g.keepAliveStarted && (!g.websocketOpen && !g.stopEventSet)) := by
  constructor
  · intro h
    cases h1 : Gateway.GetWebsocketURL t with
    | error e =>
      simp [Gateway.Connect, Gateway.mkGateway, h1] at h
    | ok url =>
      simp [Gateway.Connect, Gateway.mkGateway, h1] at h
      subst h
      exact ⟨rfl, rfl⟩
  · cases hb : g.websocketOpen <;>
      simp [Gateway.Close, GatewayState.heartbeatRunning, hb]

/-- Claim C3, witness: on the fresh-session `connect(); close()`
sequence the socket ends closed and the heartbeat stopped. -/
theorem C3_close_stops_heartbeat_witness :
    (Gateway.Close gConnected).websocketOpen = false ∧
    (Gateway.Close gConnected).heartbeatRunning = false :=
  (C3_close_stops_heartbeat_amended tGatewayURL gConnected).1 rfl

/-- Claim C4, counterexample: after `connect(); close()` the session is
back in the disconnected state (socket not open), yet the next
`connect()` does not reset and start the heartbeat and return — it
raises `RuntimeError`, because `Thread.start()` is called on the
keep-alive thread that was already started by the first `connect()`
(Python threads can only be started once). -/
theorem C4_reconnect_raises_counterexample :
    Gateway.Connect tGatewayURL Gateway.mkGateway = .ok gConnected ∧
    (Gateway.Close gConnected).websocketOpen = false ∧
    Gateway.Connect tGatewayURL (Gateway.Close gConnected) = .error .runtimeError :=
  ⟨rfl, rfl, rfl⟩

/-- Claim C4, amended: a `connect()` from the disconnected state whose
keep-alive thread has never been started (the fresh-session case)
resolves the gateway URL by `GET /` extracting the `ws` field, opens
the socket to exactly that URL, clears the stop event and starts the
heartbeat before returning; but a `connect()` from the disconnected
state after a prior `close()` (keep-alive thread already started)
raises `RuntimeError` when restarting the thread instead of
returning. -/
theorem C4_connect_amended (t : Transport) (g : GatewayState) (url : String) :
    g.websocketOpen = false →
    t.respond "/" = .ok (Json.obj [("ws", Json.str url)]) →
    (g.keepAliveStarted = false →
      Gateway.Connect t g = .ok { g with
        websocketOpen := true
        websocketURL := some url
        socketsOpened := g.socketsOpened ++ [url]
        stopEventSet := false
        keepAliveStarted := true }) ∧
    (g.keepAliveStarted = true →
      Gateway.Connect t g = .error .runtimeError) := by
  intro hopen hresp
  have hurl : Gateway.GetWebsocketURL t = .ok url := by
    simp [Gateway.GetWebsocketURL, hresp, Json.getKey, Json.asStr, List.lookup]
  constructor
  · intro hstart
    simp [Gateway.Connect, hopen, hurl, hstart]
  · intro hstart
    simp [Gateway.Connect, hopen, hurl, hstart]

/-- Claim C4, witness: the fresh-session `connect()` through a gateway
answering `{"ws": "wss://example/ws"}` opens a socket to exactly that
URL, clears the stop event and starts the heartbeat. -/
theorem C4_connect_amended_witness :
    Gateway.Connect tGatewayURL Gateway.mkGateway = .ok gConnected :=
  ((C4_connect_amended tGatewayURL Gateway.mkGateway "wss://example/ws")
    rfl rfl).1 rfl

/-- A transport on which every request fails. -/
def tDown : Transport := ⟨fun _ => .error .transportError⟩

/-- Claim C5: `Send` and `Authenticate` raise `ClosedSocketException`
exactly when the websocket is not open (the disconnected and closing
states, in which `websocket.open` is false), and when it is open they
write the frame — `Authenticate` the frame
`{"type": "Authenticate", "token": token}` — raising nothing. -/
theorem C5_send_authenticate_closedSocket (g : GatewayState) (data : Json)
    (token : String) :
    (g.websocketOpen = false →
      Gateway.Send g data = .error .closedSocket ∧
      Gateway.Authenticate g token = .error .closedSocket) ∧
    (g.websocketOpen = true →
      Gateway.Send g data = .ok { g with sentFrames := g.sentFrames ++ [data] } ∧
      Gateway.Authenticate g token = .ok { g with sentFrames := g.sentFrames ++
        [Json.obj [("type", Json.str Authenticate.VALUE),
                   ("token", Json.str token)]] }) := by
  constructor <;> intro h <;>
    simp [Gateway.Send, Gateway.Authenticate, h]

/-- Claim C5, witness: sending on the fresh (closed) gateway raises
`ClosedSocketException`; sending on the connected gateway writes the
frame. -/
theorem C5_send_authenticate_witness :
    Gateway.Send Gateway.mkGateway (Json.str "x") = .error .closedSocket ∧
    Gateway.Send gConnected (Json.str "x")
      = .ok { gConnected with sentFrames := gConnected.sentFrames ++ [Json.str "x"] } :=
  ⟨((C5_send_authenticate_closedSocket Gateway.mkGateway (Json.str "x") "tok").1 rfl).1,
   ((C5_send_authenticate_closedSocket gConnected (Json.str "x") "tok").2 rfl).1⟩

/-- Claim C6, counterexample: a channel fetch whose transport request
returns an API error payload (`{"type": "NotFound"}`) does not
propagate any error to the caller — `Channel.FromID` hits the
`if result.get("type") is not None: return` line and silently returns
`None`, the downgrade the claim rules out. -/
theorem C6_error_payload_downgraded_counterexample :
    Channel.FromID tChannelError sEmptySession "C9x"
      = .ok (none, sEmptySession, ["/channels/C9x"]) := rfl

/-- Claim C6, amended: a transport-level failure propagates uncaught
from both `Channel.FromID` and `User.FromID`; but a channel fetch whose
transport request succeeds with an error payload (a JSON object
carrying a `type` field) is downgraded by `Channel.FromID` to a `None`
result instead of propagating. -/
theorem C6_error_propagation_amended (t : Transport) (s : Session)
    (cid uid : String) (e : PyError) :
    (s.channels.lookup cid = none →
      t.respond ("/channels/" ++ cid) = .error e →
      Channel.FromID t s cid = .error e) ∧
    (t.respond ("/users/" ++ uid) = .error e →
      User.FromID t uid = .error e) ∧
    (∀ body, s.channels.lookup cid = none →
      t.respond ("/channels/" ++ cid) = .ok body →
      (body.get "type").isSome = true →
      Channel.FromID t s cid = .ok (none, s, ["/channels/" ++ cid])) := by
  refine ⟨?_, ?_, ?_⟩
  · intro h1 h2
    simp [Channel.FromID, h1, h2]
  · intro h
    simp [User.FromID, h]
  · intro body h1 h2 h3
    simp [Channel.FromID, h1, h2, h3]

/-- Claim C6, witness: transport failures surface from both fetchers;
the error payload comes back as a silent `None`. -/
theorem C6_error_propagation_witness :
    Channel.FromID tDown sEmptySession "C1" = .error .transportError ∧
    User.FromID tDown "U9" = .error .transportError ∧
    Channel.FromID tChannelError sEmptySession "C9x"
      = .ok (none, sEmptySession, ["/channels/C9x"]) :=
  ⟨(C6_error_propagation_amended tDown sEmptySession "C1" "U9" .transportError).1
      rfl rfl,
   (C6_error_propagation_amended tDown sEmptySession "C1" "U9" .transportError).2.1
      rfl,
   (C6_error_propagation_amended tChannelError sEmptySession "C9x" "U9"
      .transportError).2.2 (Json.obj [("type", Json.str "NotFound")]) rfl rfl rfl⟩

/-- Claim C7: `connect()` twice without an intervening `close()` opens
exactly one underlying socket — a successful first `connect()` from the
fresh session leaves exactly one opened socket, and a second
`connect()` (through any transport) is the guarded no-op of
`if not self.websocket.open`, returning the state unchanged and in
particular opening no second socket. -/
theorem C7_connect_twice_one_socket (t t2 : Transport) (g : GatewayState) :
    Gateway.Connect t Gateway.mkGateway = .ok g →
    g.socketsOpened.length = 1 ∧ Gateway.Connect t2 g = .ok g := by
  intro h
  cases h1 : Gateway.GetWebsocketURL t with
  | error e =>
    simp [Gateway.Connect, Gateway.mkGateway, h1] at h
  | ok url =>
    simp [Gateway.Connect, Gateway.mkGateway, h1] at h
    subst h
    exact ⟨rfl, by simp [Gateway.Connect]⟩

/-- Claim C7, witness: connecting the fresh session and connecting
again leaves exactly the one socket of the first call. -/
theorem C7_connect_twice_witness :
    gConnected.socketsOpened.length = 1 ∧
    Gateway.Connect tGatewayURL gConnected = .ok gConnected :=
  C7_connect_twice_one_socket tGatewayURL tGatewayURL gConnected rfl

/-- Claim C8: `close()` is idempotent — a second `Close` on any state
returns the state of the first unchanged (no error is raised: `Close`
is total, the HTTP client's close being idempotent by the transport
contract and the socket close guarded by `if self.websocket.open`), and
a `Close` on a state whose socket is already closed releases the socket
no further time. -/
theorem C8_close_idempotent (g : GatewayState) :
    Gateway.Close (Gateway.Close g) = Gateway.Close g ∧
    (g.websocketOpen = false →
      (Gateway.Close g).socketCloseCount = g.socketCloseCount) := by
  constructor
  · cases hb : g.websocketOpen <;> simp [Gateway.Close, hb]
  · intro h
    simp [Gateway.Close, h]

/-- Claim C8, witness: closing the connected session twice equals
closing it once, and closing the fresh (already-closed) session
releases no socket. -/
theorem C8_close_idempotent_witness :
    Gateway.Close (Gateway.Close gConnected) = Gateway.Close gConnected ∧
    (Gateway.Close Gateway.mkGateway).socketCloseCount
      = Gateway.mkGateway.socketCloseCount :=
  ⟨(C8_close_idempotent gConnected).1,
   (C8_close_idempotent Gateway.mkGateway).2 rfl⟩

/-- Claim C9: each heartbeat tick constructs exactly the payload
`{"type": "Ping", "data": 0}` and submits it to the gateway's send
path; the period is the fixed interval `Gateway.__init__` passes
(default 20 time-units) and the thread waits at most 10 time-units
(`func.result(10)`) for acknowledgment that the submitted send
completed.  On an open socket with the stop event clear, `n` loop
iterations append exactly `n` copies of that payload to the sent
frames. -/
theorem C9_heartbeat_ping (g : GatewayState) (n : Nat) :
    GatewayKeepAlive.GetPayload
      = Json.obj [("type", Json.str "Ping"), ("data", Json.num 0)] ∧
    Gateway.keepAliveInterval = 20 ∧
    GatewayKeepAlive.resultTimeout = 10 ∧
    (g.websocketOpen = true → g.stopEventSet = false →
      GatewayKeepAlive.run g n
        = .ok { g with sentFrames := g.sentFrames ++ List.replicate n GatewayKeepAlive.GetPayload }) := by
  refine ⟨rfl, rfl, rfl, ?_⟩
  induction n generalizing g with
  | zero =>
    intro hopen hstop
    simp [GatewayKeepAlive.run]
  | succ n ih =>
    intro hopen hstop
    have h1 : GatewayKeepAlive.tick g
        = .ok { g with sentFrames := g.sentFrames ++ [GatewayKeepAlive.GetPayload] } := by
      simp [GatewayKeepAlive.tick, Gateway.Send, hopen]
    have h2 := ih { g with sentFrames := g.sentFrames ++ [GatewayKeepAlive.GetPayload] }
      hopen hstop
    dsimp only at h2
    rw [hstop] at h2
    simp [GatewayKeepAlive.run, hstop, h1, h2, List.replicate_succ, List.append_assoc]

/-- Claim C9, witness: three heartbeat iterations on the connected
session send exactly three Ping payloads. -/
theorem C9_heartbeat_ping_witness :
    GatewayKeepAlive.run gConnected 3
      = .ok { gConnected with sentFrames := gConnected.sentFrames ++ List.replicate 3 GatewayKeepAlive.GetPayload } :=
  (C9_heartbeat_ping gConnected 3).2.2.2 rfl rfl

/-- Claim C10: on a channel payload whose `channel_type` tag matches
none of the five known tags, every `case` of the match fails, `channel`
stays `None`, and the registration line
`session.channels[channel.channelID] = channel` raises
`AttributeError` — not a `DecodeError` — while evaluating the subscript
key, before any store: no channel entity is returned and none is
written into the session's channel cache. -/
theorem C10_unknown_channel_type (t : Transport) (s : Session) (data tag : Json) :
    data.getKey "channel_type" = .ok tag →
    tag.eqStr "SavedMessages" = false →
    tag.eqStr "DirectMessage" = false →
    tag.eqStr "Group" = false →
    tag.eqStr "TextChannel" = false →
    tag.eqStr "VoiceChannel" = false →
    Channel.FromJSON t data s = .error (.attributeError "channelID") := by
  intro htag h1 h2 h3 h4 h5
  simp [Channel.FromJSON, htag, ChannelType.value, h1, h2, h3, h4, h5]

/-- Claim C10, witness: the tag `"Bogus"` falls through every case and
decoding fails with the `AttributeError` of `None.channelID`. -/
theorem C10_unknown_channel_type_witness :
    Channel.FromJSON tUsers (Json.obj [("channel_type", Json.str "Bogus")])
      sEmptySession = .error (.attributeError "channelID") :=
  C10_unknown_channel_type tUsers sEmptySession
    (Json.obj [("channel_type", Json.str "Bogus")]) (Json.str "Bogus")
    rfl rfl rfl rfl rfl rfl

end Pyvolt
